import Mathlib

/-!
Shallow embedding of the identity broker (Rust sources under src/) and
verification of the frozen claims about its specification.

Conventions of the embedding:
* Rust structs become Lean structures with the same field names; `i32`/`i64`
  ids are modelled as `Int`, unsigned timestamps as `Nat`.
* Database fetches performed through `sqlx` become either explicit arguments
  (the fetched rows) or lookups in an explicit `IdentityDb` record of tables,
  passed and returned by the handlers that mutate it.
* Randomly sampled values (fresh secrets, snowflake timestamps, opaque oauth
  code strings) become explicit arguments of the function that samples them.
* The argon2 password hash is idealized as a collision-free commitment: a
  `HashValue` records the hashed secret and the salt, and verification
  succeeds exactly on the secret that was hashed.
-/

set_option maxHeartbeats 1000000

deriving instance DecidableEq for Except

/-- Mirrors `User` in src/user/mod.rs (the `users` table row). -/
structure User where
  id : Int
  email : String
  username : String
  name : String
  is_suspended : Bool
  credential_uuid : Nat
  is_admin : Bool
  deriving DecidableEq

/-- Mirrors `IdentityGroup` in src/group/mod.rs. -/
structure IdentityGroup where
  id : Int
  slug : String
  name : String
  description : String
  is_managed : Bool
  deriving DecidableEq

/-- Mirrors `IdentityGroupMembership` in src/group/mod.rs. -/
structure IdentityGroupMembership where
  group_id : Int
  user_id : Int
  deriving DecidableEq

/-- Mirrors `IdentityClient` in src/client/mod.rs (the `clients` table row). -/
structure IdentityClient where
  client_id : String
  client_secret : String
  app_name : String
  app_description : String
  redirect_uris : List String
  is_managed : Bool
  is_disabled : Bool
  default_allowed : Bool
  allow_explicit_flow : Bool
  allow_implicit_flow : Bool
  deriving DecidableEq

/-- Mirrors `UserPermissionOverride` in src/client/permissions.rs. -/
structure UserPermissionOverride where
  user_id : Int
  client_id : String
  granted : Bool
  deriving DecidableEq

/-- Mirrors `GroupPermissionOverride` in src/client/permissions.rs. -/
structure GroupPermissionOverride where
  group_id : Int
  client_id : String
  granted : Bool
  override_priority : Int
  deriving DecidableEq

/-- Mirrors `UserAppRoleOverride` in src/client/roles.rs. -/
structure UserAppRoleOverride where
  user_id : Int
  client_id : String
  role : String
  granted : Bool
  deriving DecidableEq

/-- Mirrors `GroupAppRoleOverride` in src/client/roles.rs. -/
structure GroupAppRoleOverride where
  group_id : Int
  client_id : String
  role : String
  granted : Bool
  override_priority : Int
  deriving DecidableEq

/-- Insert `x` behind every already-placed element whose key is not greater,
so that elements with equal keys keep their original relative order. -/
def insert_sorted_by (key : α → Int) (x : α) : List α → List α
  | [] => [x]
  | y :: ys =>
    if key y ≤ key x then y :: insert_sorted_by key x ys else x :: y :: ys

/-- Stable ascending sort by an integer key: models the stable
`sort_by_key(|x| x.override_priority)` calls of src/client/mod.rs
(lines 131 and 158) with a structurally recursive insertion sort, which the
kernel can evaluate. -/
def sort_by_key (key : α → Int) (l : List α) : List α :=
  l.foldl (fun acc x => insert_sorted_by key x acc) []

/-- The ascending sort by `override_priority` performed in
`IdentityClient::is_user_allowed` (src/client/mod.rs line 131). -/
def sort_group_permissions (l : List GroupPermissionOverride) :
    List GroupPermissionOverride :=
  sort_by_key (fun x => x.override_priority) l

/-- The ascending sort by `override_priority` performed in
`IdentityClient::get_user_roles` (src/client/mod.rs line 158). -/
def sort_group_role_overrides (l : List GroupAppRoleOverride) :
    List GroupAppRoleOverride :=
  sort_by_key (fun x => x.override_priority) l

/-- Mirrors `IdentityClient::is_user_allowed` (src/client/mod.rs lines
106-142).  The two database fetches are passed as arguments:
`user_override_opt` is the result of
`UserPermissionOverride::fetch_user_permissions_for_client` for (user, client)
and `group_permissions` the result of
`GroupPermissionOverride::fetch_group_permissions_for_client` for the client. -/
def is_user_allowed (client : IdentityClient) (_user : User)
    (groups : List IdentityGroup)
    (user_override_opt : Option UserPermissionOverride)
    (group_permissions : List GroupPermissionOverride) : Bool :=
  match user_override_opt with
  | some user_override => user_override.granted
  | none =>
    let group_ids := groups.map (fun x => x.id)
    (sort_group_permissions group_permissions).foldl
      (fun allow permission =>
        if group_ids.contains permission.group_id then permission.granted
        else allow)
      client.default_allowed

/-- The body of the two role-override loops in
`IdentityClient::get_user_roles` (src/client/mod.rs lines 160-170 and
180-186): `granted` pushes the role if absent, `!granted` retains everything
but the role. -/
def apply_role_override (roles : List String) (role : String)
    (granted : Bool) : List String :=
  if granted && !(roles.contains role) then roles ++ [role]
  else if !granted && roles.contains role then roles.filter (fun x => x != role)
  else roles

/-- Mirrors `IdentityClient::get_user_roles` (src/client/mod.rs lines
144-189).  `group_overrides` is the fetch result of
`GroupAppRoleOverride::fetch_group_role_overrides_for_client` and
`user_overrides` that of
`UserAppRoleOverride::fetch_user_role_overrides_for_client`. -/
def get_user_roles (client : IdentityClient) (_user : User)
    (groups : List IdentityGroup)
    (group_overrides : List GroupAppRoleOverride)
    (user_overrides : List UserAppRoleOverride) : List String :=
  let group_ids := groups.map (fun x => x.id)
  let roles := (sort_group_role_overrides group_overrides).foldl
    (fun roles o =>
      if group_ids.contains o.group_id then
        apply_role_override roles o.role o.granted
      else roles)
    []
  user_overrides.foldl (fun roles o => apply_role_override roles o.role o.granted)
    roles

/-- The four ephemeral-token key purposes named by the spec (section 4.1). -/
inductive KeyPurpose
  | registrationChallenge
  | loginChallenge
  | accessSession
  | refreshSession
  deriving DecidableEq

/-- Mirrors `AppPrivateKeys` (src/main.rs lines 26-31, populated by
src/keys.rs): five independently generated HS256 secrets.  The asymmetric
OIDC keys are not modelled. -/
structure AppPrivateKeys where
  passkey_registration_key : String
  passkey_authentication_key : String
  identity_access_jwt_key : String
  identity_refresh_jwt_key : String
  registration_jwt_key : String
  deriving DecidableEq

/-- The HS256 secret each key purpose actually signs and verifies with, as
wired in the source: the registration challenge uses
`passkey_registration_key` (src/auth/register.rs lines 100 and 106), the
login challenge ALSO uses `passkey_registration_key` (src/auth/login.rs
lines 54 and 60; the generated `passkey_authentication_key` is never used),
the access session uses `identity_access_jwt_key` (src/auth/identity.rs
lines 63 and 100) and the refresh session uses `identity_refresh_jwt_key`
(src/auth/identity.rs lines 108 and 114). -/
def purpose_key (keys : AppPrivateKeys) : KeyPurpose → String
  | .registrationChallenge => keys.passkey_registration_key
  | .loginChallenge => keys.passkey_registration_key
  | .accessSession => keys.identity_access_jwt_key
  | .refreshSession => keys.identity_refresh_jwt_key

/-- An HS256-signed token, idealized: the payload together with the MAC key
it was signed under.  Signature verification is modelled as exact key
equality (an ideal MAC: verification succeeds precisely under the signing
key). -/
structure SignedToken (α : Type) where
  mac_key : String
  payload : α
  deriving DecidableEq

/-- Models `jsonwebtoken::encode` with the purpose-selected HS256 secret. -/
def encode_token (keys : AppPrivateKeys) (p : KeyPurpose) (payload : α) :
    SignedToken α :=
  ⟨purpose_key keys p, payload⟩

/-- Models `jsonwebtoken::decode` with the purpose-selected HS256 secret and a
payload of the expected shape: returns the payload when the signature key
matches, nothing otherwise. -/
def decode_token (keys : AppPrivateKeys) (p : KeyPurpose)
    (t : SignedToken α) : Option α :=
  if t.mac_key = purpose_key keys p then some t.payload else none

/-- Model of `snowflaked::Generator`: instance id (10 bits), the timestamp of
the previous id (milliseconds) and the intra-millisecond sequence counter
(12 bits).  Id layout: timestamp << 22 | instance << 12 | sequence. -/
structure SnowflakeGenerator where
  instance_id : Nat
  last_millis : Nat
  sequence : Nat
  deriving DecidableEq

/-- Mirrors `snowflaked::Generator::new(instance)`: sequence starts at 0. -/
def SnowflakeGenerator.new (inst : Nat) : SnowflakeGenerator :=
  ⟨inst % 2 ^ 10, 0, 0⟩

/-- One draw from the generator at clock value `now_millis`: the sequence
counter increments only when the same generator is asked twice inside one
millisecond, otherwise it resets to 0. -/
def SnowflakeGenerator.generate (g : SnowflakeGenerator) (now_millis : Nat) :
    Nat × SnowflakeGenerator :=
  let seq := if now_millis = g.last_millis then (g.sequence + 1) % 2 ^ 12 else 0
  (now_millis % 2 ^ 42 * 2 ^ 22 + g.instance_id * 2 ^ 12 + seq,
   ⟨g.instance_id, now_millis, seq⟩)

/-- The session id produced by `UserSession::create_session`
(src/auth/session.rs lines 65-66): the function constructs a NEW local
`snowflaked::Generator::new(0)` on every call and draws a single id from it,
so the id is a function of the call timestamp alone. -/
def create_session_session_id (now_millis : Nat) : Nat :=
  ((SnowflakeGenerator.new 0).generate now_millis).1

/-- The session ids of a sequence of `create_session` calls in one broker
process, given the millisecond clock value observed by each call (no state is
shared between calls: the generator is a local of each call). -/
def create_session_id_trace (clock : List Nat) : List Nat :=
  clock.map create_session_session_id

/-- An argon2 password hash, idealized as a collision-free commitment to the
hashed secret and the salt. -/
structure HashValue where
  hashed_secret : String
  salt : Nat
  deriving DecidableEq

/-- Models `Argon2::hash_password` (src/auth/session.rs lines 71-76 and
105-110). -/
def hash_password (secret : String) (salt : Nat) : HashValue :=
  ⟨secret, salt⟩

/-- Models `Argon2::verify_password` (src/auth/identity.rs lines 144-147):
verification succeeds exactly on the secret that was hashed. -/
def verify_password (presented : String) (h : HashValue) : Bool :=
  presented == h.hashed_secret

/-- Mirrors `UserSession` in src/auth/session.rs (the `user_sessions` table
row). -/
structure UserSession where
  session_id : Int
  user_id : Int
  refresh_hash : HashValue
  webauthn_id : Int
  deriving DecidableEq

/-- Mirrors `WebauthnCredential` in src/auth/credential.rs: `credential_id`
is the base64 of the raw credential id, `credential_uuid` correlates the
credential to its owning user, and the serialized passkey blob is opaque. -/
structure WebauthnCredential where
  id : Int
  name : String
  credential_id : String
  credential_uuid : Nat
  serialized_passkey : String
  deriving DecidableEq

/-- Mirrors `UserAppAuthorization` in src/oauth/authorization.rs. -/
structure UserAppAuthorization where
  user_id : Int
  client_id : String
  sub : String
  last_used : Int
  revoked : Bool
  deriving DecidableEq

/-- Mirrors `OauthCodeData` in src/oauth/code.rs (an Ephemeral Grant Store
value for an authorization code). -/
structure OauthCodeData where
  user_id : Int
  client_id : String
  nonce : Option String
  redirect_uri : String
  deriving DecidableEq

/-- Mirrors `OauthAccessTokenData` in src/oauth/token.rs. -/
structure OauthAccessTokenData where
  user_id : Int
  client_id : String
  nonce : Option String
  deriving DecidableEq

/-- Mirrors `OauthRefreshTokenData` in src/oauth/token.rs. -/
structure OauthRefreshTokenData where
  user_id : Int
  client_id : String
  nonce : Option String
  deriving DecidableEq

/-- The mutable stores the handlers read and write: the relational tables
(postgres) and the three TTL key-value namespaces of the Ephemeral Grant
Store (redis, keys prefixed `oauth_code:`, `oauth_access_token:` and
`oauth_refresh_token:`, here three association lists).  TTL expiry itself is
not modelled: within the horizon of each claim no entry expires. -/
structure IdentityDb where
  users : List User
  credentials : List WebauthnCredential
  sessions : List UserSession
  clients : List IdentityClient
  groups : List IdentityGroup
  memberships : List IdentityGroupMembership
  user_perm_overrides : List UserPermissionOverride
  group_perm_overrides : List GroupPermissionOverride
  user_role_overrides : List UserAppRoleOverride
  group_role_overrides : List GroupAppRoleOverride
  authorizations : List UserAppAuthorization
  oauth_codes : List (String × OauthCodeData)
  oauth_access_tokens : List (String × OauthAccessTokenData)
  oauth_refresh_tokens : List (String × OauthRefreshTokenData)
  deriving DecidableEq

/-- Mirrors `User::from_user_id` (src/user/mod.rs lines 53-62). -/
def User.from_user_id (db : IdentityDb) (user_id : Int) : Option User :=
  db.users.find? (fun u => u.id == user_id)

/-- Mirrors `User::from_credential_uuid` (src/user/mod.rs lines 64-76). -/
def User.from_credential_uuid (db : IdentityDb) (uuid : Nat) : Option User :=
  db.users.find? (fun u => u.credential_uuid == uuid)

/-- Mirrors `User::get_groups` (src/user/mod.rs lines 108-122): the groups
joined through the membership table. -/
def User.get_groups (db : IdentityDb) (user_id : Int) : List IdentityGroup :=
  db.groups.filter (fun g =>
    db.memberships.any (fun m => m.group_id == g.id && m.user_id == user_id))

/-- Mirrors `UserSession::from_session_id` (src/auth/session.rs lines
40-56). -/
def UserSession.from_session_id (db : IdentityDb) (session_id : Int) :
    Option UserSession :=
  db.sessions.find? (fun s => s.session_id == session_id)

/-- Mirrors `IdentityClient::from_client_id` (src/client/mod.rs lines
53-67). -/
def IdentityClient.from_client_id (db : IdentityDb) (client_id : String) :
    Option IdentityClient :=
  db.clients.find? (fun c => c.client_id == client_id)

/-- Mirrors `WebauthnCredential::from_credential_uuid`
(src/auth/credential.rs). -/
def WebauthnCredential.from_credential_uuid (db : IdentityDb) (uuid : Nat) :
    List WebauthnCredential :=
  db.credentials.filter (fun c => c.credential_uuid == uuid)

/-- Mirrors `UserPermissionOverride::fetch_user_permissions_for_client`
(src/client/permissions.rs lines 22-36). -/
def fetch_user_permissions_for_client (db : IdentityDb) (user_id : Int)
    (client_id : String) : Option UserPermissionOverride :=
  db.user_perm_overrides.find? (fun o =>
    o.user_id == user_id && o.client_id == client_id)

/-- Mirrors `GroupPermissionOverride::fetch_group_permissions_for_client`
(src/client/permissions.rs). -/
def fetch_group_permissions_for_client (db : IdentityDb)
    (client_id : String) : List GroupPermissionOverride :=
  db.group_perm_overrides.filter (fun o => o.client_id == client_id)

/-- Mirrors `UserAppRoleOverride::fetch_user_role_overrides_for_client`
(src/client/roles.rs lines 24-38). -/
def fetch_user_role_overrides_for_client (db : IdentityDb) (user_id : Int)
    (client_id : String) : List UserAppRoleOverride :=
  db.user_role_overrides.filter (fun o =>
    o.user_id == user_id && o.client_id == client_id)

/-- Mirrors `GroupAppRoleOverride::fetch_group_role_overrides_for_client`
(src/client/roles.rs). -/
def fetch_group_role_overrides_for_client (db : IdentityDb)
    (client_id : String) : List GroupAppRoleOverride :=
  db.group_role_overrides.filter (fun o => o.client_id == client_id)

/-- Mirrors `UserAppAuthorization::get_authorization`
(src/oauth/authorization.rs lines 74-88). -/
def get_authorization (db : IdentityDb) (user_id : Int)
    (client_id : String) : Option UserAppAuthorization :=
  db.authorizations.find? (fun a =>
    a.user_id == user_id && a.client_id == client_id)

/-- `IdentityClient::is_user_allowed` with its two fetches resolved against
the database, as every handler calls it. -/
def is_user_allowed_db (db : IdentityDb) (client : IdentityClient)
    (user : User) (groups : List IdentityGroup) : Bool :=
  is_user_allowed client user groups
    (fetch_user_permissions_for_client db user.id client.client_id)
    (fetch_group_permissions_for_client db client.client_id)

/-- `IdentityClient::get_user_roles` with its two fetches resolved against
the database. -/
def get_user_roles_db (db : IdentityDb) (client : IdentityClient)
    (user : User) (groups : List IdentityGroup) : List String :=
  get_user_roles client user groups
    (fetch_group_role_overrides_for_client db client.client_id)
    (fetch_user_role_overrides_for_client db user.id client.client_id)

/-- Mirrors `IdentityAccessClaims` in src/auth/identity.rs. -/
structure IdentityAccessClaims where
  user_id : Int
  method : String
  iat : Nat
  exp : Nat
  email : String
  username : String
  name : String
  webauthn_id : Int
  is_admin : Bool
  session_id : Int
  deriving DecidableEq

/-- Mirrors `IdentityRefreshClaims` in src/auth/identity.rs: the session id
kept next to the raw refresh secret. -/
structure IdentityRefreshClaims where
  session_id : Int
  refresh_token : String
  deriving DecidableEq

/-- The error kinds of `ApiErr` (src/response.rs) reached by the modelled
handlers. -/
inductive ApiErr
  | SessionExpired
  | InternalServerError
  | UserDeleted
  | UserSuspended
  | LoginRequired
  | AdminRequired
  | InvalidChallenge
  | InvalidCredential
  | ExpiredRegistration
  | AppDisabled
  | UnknownClient
  | InvalidRedirectUri (uri : String)
  | OauthAclDenied (app_name : String)
  | Other (code : String) (message : String)
  deriving DecidableEq

/-- Mirrors `IdentityAccessClaims::create_from_passkey`
(src/auth/identity.rs lines 74-96): issued-at is the call time, expiry one
hour later. -/
def IdentityAccessClaims.create_from_passkey (user : User)
    (webauthn_id : Int) (session_id : Int) (now : Nat) :
    IdentityAccessClaims :=
  { user_id := user.id, method := "passkey", iat := now, exp := now + 3600,
    email := user.email, username := user.username, name := user.name,
    webauthn_id := webauthn_id, is_admin := user.is_admin,
    session_id := session_id }

/-- Mirrors `UserSession::create_session` (src/auth/session.rs lines 58-99):
the session id comes from a freshly constructed local snowflake generator,
the refresh secret is the sampled `fresh_secret`, only its hash is stored. -/
def UserSession.create_session (db : IdentityDb) (user_id : Int)
    (webauthn_id : Int) (now_millis : Nat) (fresh_secret : String)
    (salt : Nat) : IdentityDb × (String × UserSession) :=
  let session : UserSession :=
    ⟨(create_session_session_id now_millis : Int), user_id,
      hash_password fresh_secret salt, webauthn_id⟩
  ({ db with sessions := db.sessions ++ [session] }, (fresh_secret, session))

/-- Mirrors `UserSession::refresh_session` (src/auth/session.rs lines
101-125): replaces the stored hash of the session row with the hash of the
freshly sampled secret and returns the raw secret. -/
def UserSession.refresh_session (db : IdentityDb) (s : UserSession)
    (fresh_secret : String) (salt : Nat) : IdentityDb × String :=
  let new_hash := hash_password fresh_secret salt
  ({ db with sessions := db.sessions.map (fun t =>
      if t.session_id == s.session_id then
        { t with refresh_hash := new_hash }
      else t) },
   fresh_secret)

/-- Mirrors `RefreshTokenResponse` (src/auth/identity.rs lines 55-59); the
two serialized JWTs are modelled by their claim sets. -/
structure RefreshTokenResponse where
  access_token : IdentityAccessClaims
  refresh_token : IdentityRefreshClaims
  deriving DecidableEq

/-- Mirrors `refresh_auth` (src/auth/identity.rs lines 125-177).
`decoded_claims` is the result of `IdentityRefreshClaims::from_jwt` on the
presented refresh token (`none` models a token that fails to decode);
`fresh_secret` and `salt` are the values sampled inside
`UserSession::refresh_session`; `now` is the issue time of the new access
claims.  `PasswordHash::new` on a stored hash never fails in the model, so
that `InternalServerError` branch is unreachable here. -/
def refresh_auth (db : IdentityDb)
    (decoded_claims : Option IdentityRefreshClaims) (fresh_secret : String)
    (salt : Nat) (now : Nat) :
    IdentityDb × Except ApiErr RefreshTokenResponse :=
  match decoded_claims with
  | none => (db, .error .SessionExpired)
  | some refresh_claims =>
    match UserSession.from_session_id db refresh_claims.session_id with
    | none => (db, .error .SessionExpired)
    | some session =>
      if !(verify_password refresh_claims.refresh_token session.refresh_hash)
      then (db, .error .SessionExpired)
      else
        let rotated := UserSession.refresh_session db session fresh_secret salt
        match User.from_user_id rotated.1 session.user_id with
        | none => (rotated.1, .error .UserDeleted)
        | some user =>
          if user.is_suspended then (rotated.1, .error .UserSuspended)
          else
            (rotated.1, .ok
              { access_token := IdentityAccessClaims.create_from_passkey user
                  session.webauthn_id session.session_id now,
                refresh_token :=
                  { session_id := session.session_id,
                    refresh_token := rotated.2 } })

/-- Mirrors `SignedLoginChallengeClaims` (src/auth/login.rs lines 23-28); the
`DiscoverableAuthentication` ceremony state is opaque to every claim and
modelled as a number. -/
structure SignedLoginChallengeClaims where
  iat : Nat
  exp : Nat
  auth : Nat
  deriving DecidableEq

/-- Mirrors `LoginFinalizeResponse` (src/auth/login.rs lines 42-49); the two
serialized JWTs are modelled by their claim sets. -/
structure LoginFinalizeResponse where
  access_token : IdentityAccessClaims
  refresh_token : IdentityRefreshClaims
  session : UserSession
  credential : WebauthnCredential
  user : User
  deriving DecidableEq

/-- Mirrors `finish_passkey_login` (src/auth/login.rs lines 100-185).
Decoded or opaque ceremony inputs become arguments: `decoded_challenge` is
the result of `SignedLoginChallengeClaims::from_token` on the presented
challenge signature; `credential_handle` the user handle of the device
response after `Uuid::from_slice` (`none` when absent or malformed);
`webauthn_result` the outcome of
`webauthn.finish_discoverable_authentication` (`some id` carries the matched
credential id, base64, `none` is a ceremony error).  `now_millis`,
`fresh_secret`, `salt` and `now` feed session creation and claim minting. -/
def finish_passkey_login (db : IdentityDb)
    (decoded_challenge : Option SignedLoginChallengeClaims)
    (credential_handle : Option Nat) (webauthn_result : Option String)
    (now_millis : Nat) (fresh_secret : String) (salt : Nat) (now : Nat) :
    IdentityDb × Except ApiErr LoginFinalizeResponse :=
  match decoded_challenge with
  | none => (db, .error .InvalidChallenge)
  | some _signed_challenge =>
    match credential_handle with
    | none => (db, .error .InvalidCredential)
    | some credential_uuid =>
      let credential_vec :=
        WebauthnCredential.from_credential_uuid db credential_uuid
      match User.from_credential_uuid db credential_uuid with
      | none => (db, .error .UserDeleted)
      | some user =>
        if user.is_suspended then (db, .error .UserSuspended)
        else
          match webauthn_result with
          | none => (db, .error (.Other "webauthn_error"
              "An unexpected webauthn passkey registration error occurred."))
          | some matched_cred_id =>
            let possible_credentials := credential_vec.filter (fun c =>
              c.credential_id == matched_cred_id)
            match possible_credentials.head? with
            | none => (db, .error .InternalServerError)
            | some credential =>
              let created := UserSession.create_session db user.id
                credential.id now_millis fresh_secret salt
              let session := created.2.2
              (created.1, .ok
                { access_token := IdentityAccessClaims.create_from_passkey
                    user credential.id session.session_id now,
                  refresh_token :=
                    { session_id := session.session_id,
                      refresh_token := created.2.1 },
                  session := session, credential := credential,
                  user := user })

/-- Mirrors the `User` extractor `from_request_parts` (src/user/mod.rs lines
145-164): `claims_ext` is the access claim set attached by the auth
middleware (`none` when the request carries no valid access token). -/
def User.from_request_parts (db : IdentityDb)
    (claims_ext : Option IdentityAccessClaims) : Except ApiErr User :=
  match claims_ext with
  | none => .error .LoginRequired
  | some claims =>
    match User.from_user_id db claims.user_id with
    | none => .error .UserDeleted
    | some user =>
      if user.is_suspended then .error .UserSuspended else .ok user

/-- Mirrors `OidcIdTokenClaims` (src/oauth/mod.rs lines 25-40). -/
structure OidcIdTokenClaims where
  iss : String
  sub : String
  aud : String
  exp : Nat
  iat : Nat
  auth_time : Nat
  nonce : Option String
  name : String
  preferred_username : String
  email : String
  email_verified : Bool
  groups : List String
  roles : List String
  deriving DecidableEq

/-- Mirrors `create_id_token` (src/oauth/mod.rs lines 42-93) up to the RS256
signing step: the resulting identity token is modelled by its claim set
(the signing key selection and JWT serialization carry no information any
claim depends on). -/
def create_id_token (db : IdentityDb) (iss : String) (user : User)
    (client : IdentityClient) (groups : List IdentityGroup)
    (nonce : Option String) (authorization : UserAppAuthorization)
    (now : Nat) : OidcIdTokenClaims :=
  { iss := iss, sub := authorization.sub, aud := client.client_id,
    exp := now + 3600, iat := now, auth_time := now, nonce := nonce,
    name := user.name, preferred_username := user.username,
    email := user.email, email_verified := true,
    groups := groups.map (fun g => g.slug),
    roles := get_user_roles_db db client user groups }

/-- A concrete stand-in for the RS256 serialization of an identity token,
used only where the Rust code embeds the JWT string in a redirect query
parameter; no claim inspects its contents. -/
def serialize_id_token (c : OidcIdTokenClaims) : String :=
  c.iss ++ "." ++ c.sub ++ "." ++ c.aud

/-- Mirrors `OauthAccessTokenData::from_token` (src/oauth/token.rs lines
24-31): a lookup in the access-token namespace of the grant store. -/
def OauthAccessTokenData.from_token (db : IdentityDb) (token : String) :
    Option OauthAccessTokenData :=
  (db.oauth_access_tokens.find? (fun kv => kv.1 == token)).map (fun kv => kv.2)

/-- Mirrors `OauthCodeData::from_code` (src/oauth/code.rs lines 18-28). -/
def OauthCodeData.from_code (db : IdentityDb) (code : String) :
    Option OauthCodeData :=
  (db.oauth_codes.find? (fun kv => kv.1 == code)).map (fun kv => kv.2)

/-- The result of `oauth_userinfo`: the identity token body on success, the
401 `invalid_token` challenge, or a 500. -/
inductive UserinfoResult
  | ok (id_token : OidcIdTokenClaims)
  | unauthorized
  | internal_error
  deriving DecidableEq

/-- Mirrors `oauth_userinfo` (src/oauth/routes.rs lines 401-456): resolve
the bearer token in the grant store, re-validate authorization record, user,
client and the access decision, then mint a fresh identity token;  every
check failure is the bare 401 challenge.  The store and database reads of
the model cannot signal a transport error, so the 500 branches are
unreachable here. -/
def oauth_userinfo (db : IdentityDb) (iss : String) (access_token : String)
    (now : Nat) : UserinfoResult :=
  match OauthAccessTokenData.from_token db access_token with
  | none => .unauthorized
  | some access_token_data =>
    match get_authorization db access_token_data.user_id
        access_token_data.client_id with
    | none => .unauthorized
    | some user_app_auth =>
      match User.from_user_id db access_token_data.user_id with
      | none => .unauthorized
      | some user =>
        if user.is_suspended then .unauthorized
        else
          match IdentityClient.from_client_id db
              access_token_data.client_id with
          | none => .unauthorized
          | some client =>
            if client.is_disabled then .unauthorized
            else
              let groups := User.get_groups db user.id
              if !(is_user_allowed_db db client user groups) then
                .unauthorized
              else
                .ok (create_id_token db iss user client groups
                  access_token_data.nonce user_app_auth now)

/-- A parsed URL, as much of `url::Url` as the authorize flow touches: the
scheme, the part before any query or fragment, and the two optional trailing
components. -/
structure Url where
  base : String
  scheme : String
  query : Option String
  fragment : Option String
  deriving DecidableEq

/-- Split a character list at the first occurrence of `sep`, when present. -/
def split_first_on (sep : Char) : List Char → Option (List Char × List Char)
  | [] => none
  | c :: cs =>
    if c = sep then some ([], cs)
    else
      match split_first_on sep cs with
      | none => none
      | some (pre, post) => some (c :: pre, post)

/-- Models `Url::parse` for the shapes the authorize flow feeds it: a
nonempty scheme before the first colon, then an optional `#fragment` and,
before it, an optional `?query` split off the remainder.  Scheme-less
strings fail to parse. -/
def Url.parse (s : String) : Option Url :=
  match split_first_on (Char.ofNat 58) s.data with
  | none => none
  | some (scheme_chars, rest) =>
    if scheme_chars.isEmpty then none
    else
      let frag_parts := match split_first_on (Char.ofNat 35) rest with
        | none => (rest, (none : Option String))
        | some (b, f) => (b, some ⟨f⟩)
      let query_parts := match split_first_on (Char.ofNat 63) frag_parts.1
        with
        | none => (frag_parts.1, (none : Option String))
        | some (p, q) => (p, some ⟨q⟩)
      some ⟨⟨scheme_chars ++ Char.ofNat 58 :: query_parts.1⟩,
        ⟨scheme_chars⟩, query_parts.2, frag_parts.2⟩

/-- Accumulator pass behind `split_whitespace`: `cur` holds the reversed
characters of the token being read. -/
def split_whitespace_aux (cur : List Char) : List Char → List String
  | [] => if cur.isEmpty then [] else [⟨cur.reverse⟩]
  | c :: cs =>
    if c.isWhitespace then
      (if cur.isEmpty then [] else [⟨cur.reverse⟩]) ++
        split_whitespace_aux [] cs
    else split_whitespace_aux (c :: cur) cs

/-- Models `str::split_whitespace`: the whitespace-separated tokens, empties
dropped. -/
def split_whitespace (s : String) : List String :=
  split_whitespace_aux [] s.data

/-- Mirrors `OauthAuthorizeRequest` (src/oauth/routes.rs lines 11-20). -/
structure OauthAuthorizeRequest where
  scope : String
  response_type : String
  client_id : String
  redirect_uri : String
  state : Option String
  response_mode : Option String
  nonce : Option String
  deriving DecidableEq

/-- Mirrors `validate_oauth_authorization` (src/oauth/routes.rs lines
63-127), short-circuiting in source order: disabled client, response types
(an EMPTY request defaults to `code` here), redirect URI parse, dangerous
scheme, allow-list membership, the access decision, response mode. -/
def validate_oauth_authorization (db : IdentityDb) (user : User)
    (payload : OauthAuthorizeRequest) (client : IdentityClient)
    (groups : List IdentityGroup) : Option ApiErr :=
  if client.is_disabled then some .AppDisabled
  else
    let valid_response_types :=
      (if client.allow_explicit_flow then ["code"] else []) ++
      (if client.allow_implicit_flow then ["token", "id_token"] else [])
    let response_types0 := split_whitespace payload.response_type
    let response_types :=
      if response_types0.isEmpty then ["code"] else response_types0
    match response_types.find? (fun t =>
        !(valid_response_types.contains t)) with
    | some t => some (.Other "invalid_response_type" t)
    | none =>
      match Url.parse payload.redirect_uri with
      | none => some (.InvalidRedirectUri payload.redirect_uri)
      | some parsed_redirect_uri =>
        if parsed_redirect_uri.scheme == "javascript" ||
            parsed_redirect_uri.scheme == "data" then
          some (.InvalidRedirectUri payload.redirect_uri)
        else if !(client.redirect_uris.contains payload.redirect_uri) then
          some (.InvalidRedirectUri payload.redirect_uri)
        else if !(is_user_allowed_db db client user groups) then
          some (.OauthAclDenied client.app_name)
        else
          match payload.response_mode with
          | some response_mode =>
            if response_mode != "query" && response_mode != "fragment" then
              some (.Other "invalid_response_mode" response_mode)
            else none
          | none => none

/-- The fragment-versus-query decision of `oauth_authorize_approve`
(src/oauth/routes.rs lines 168-172): explicit `response_mode=fragment`, or
no mode and an implicit artifact (`token` or `id_token`) among the requested
response types.  Note the requested types are re-split WITHOUT the
empty-defaults-to-code rule of validation. -/
def approve_use_fragment (payload : OauthAuthorizeRequest) : Bool :=
  let response_types := split_whitespace payload.response_type
  match payload.response_mode with
  | some q => q == "fragment"
  | none =>
    response_types.contains "token" || response_types.contains "id_token"

/-- Models the query-string assembly `serde_urlencoded::to_string` of the
callback parameters (percent-encoding elided; the iteration order of the
Rust `HashMap` is modelled as insertion order). -/
def encode_query_params (params : List (String × String)) : String :=
  String.intercalate "&" (params.map (fun kv => kv.1 ++ "=" ++ kv.2))

/-- Mirrors `UserAppAuthorization::authorize_for_user`
(src/oauth/authorization.rs lines 17-44): upsert on (user, client); an
existing row keeps its `sub` and gets `last_used` bumped and `revoked`
cleared, otherwise a row with the freshly sampled `sub` is inserted. -/
def authorize_for_user (db : IdentityDb) (user_id : Int)
    (client_id : String) (fresh_sub : String) (now : Nat) :
    IdentityDb × UserAppAuthorization :=
  match db.authorizations.find? (fun a =>
      a.user_id == user_id && a.client_id == client_id) with
  | some existing =>
    let updated : UserAppAuthorization :=
      { existing with last_used := (now : Int), revoked := false }
    ({ db with authorizations := db.authorizations.map (fun a =>
        if a.user_id == user_id && a.client_id == client_id then updated
        else a) },
     updated)
  | none =>
    let created : UserAppAuthorization :=
      ⟨user_id, client_id, fresh_sub, (now : Int), false⟩
    ({ db with authorizations := db.authorizations ++ [created] }, created)

/-- Mirrors `OauthAuthorizeApproveResponse` (src/oauth/routes.rs lines
53-56); the redirect target is kept as a parsed URL rather than its final
string. -/
structure OauthAuthorizeApproveResponse where
  redirect_to : Url
  deriving DecidableEq

/-- Mirrors `oauth_authorize_approve` (src/oauth/routes.rs lines 151-246).
`claims_ext` feeds the `User` extractor; `fresh_code`, `fresh_access_token`
and `fresh_sub` are the values sampled for the code grant, the implicit
access-token grant and the authorization `sub`; `iss` and `now` feed
identity-token minting.  Note: the handler re-splits `response_type` WITHOUT
the empty-defaults-to-code rule applied during validation, and an artifact
is minted only when its literal is present in that re-split list. -/
def oauth_authorize_approve (db : IdentityDb)
    (claims_ext : Option IdentityAccessClaims)
    (payload : OauthAuthorizeRequest) (iss : String) (fresh_code : String)
    (fresh_access_token : String) (fresh_sub : String) (now : Nat) :
    IdentityDb × Except ApiErr OauthAuthorizeApproveResponse :=
  match User.from_request_parts db claims_ext with
  | .error e => (db, .error e)
  | .ok user =>
    match IdentityClient.from_client_id db payload.client_id with
    | none => (db, .error .UnknownClient)
    | some client =>
      let user_groups := User.get_groups db user.id
      match validate_oauth_authorization db user payload client user_groups
        with
      | some err => (db, .error err)
      | none =>
        let response_types := split_whitespace payload.response_type
        let use_fragment := approve_use_fragment payload
        match Url.parse payload.redirect_uri with
        | none => (db, .error .InternalServerError)
        | some redirect_url =>
          let upserted := authorize_for_user db user.id client.client_id
            fresh_sub now
          let db1 := upserted.1
          let authorization := upserted.2
          let db2 :=
            if response_types.contains "code" then
              { db1 with oauth_codes := db1.oauth_codes ++
                [(fresh_code,
                  ⟨user.id, client.client_id, payload.nonce,
                    payload.redirect_uri⟩)] }
            else db1
          let params1 : List (String × String) :=
            if response_types.contains "code" then [("code", fresh_code)]
            else []
          let db3 :=
            if response_types.contains "token" then
              { db2 with oauth_access_tokens := db2.oauth_access_tokens ++
                [(fresh_access_token,
                  ⟨user.id, client.client_id, payload.nonce⟩)] }
            else db2
          let params2 := params1 ++
            (if response_types.contains "token" then
              [("access_token", fresh_access_token),
                ("token_type", "bearer"), ("expires_in", "3600")]
            else [])
          let params3 := params2 ++
            (if response_types.contains "id_token" then
              [("id_token", serialize_id_token (create_id_token db3 iss user
                client user_groups payload.nonce authorization now))]
            else [])
          let params4 := params3 ++
            (match payload.state with
            | some s => [("state", s)]
            | none => [])
          let parameter_string := encode_query_params params4
          let callback_url :=
            if use_fragment then
              { redirect_url with
                fragment := some parameter_string
                query := none }
            else
              { redirect_url with
                query := some parameter_string
                fragment := none }
          (db3, .ok ⟨callback_url⟩)

/-- The OAuth error kinds of the token-exchange endpoint
(src/oauth/routes.rs, `get_oauth_error` call sites). -/
inductive OauthTokenErr
  | invalid_request
  | invalid_client
  | invalid_grant
  | unsupported_grant_type
  | internal_server_error
  deriving DecidableEq

/-- Mirrors `OauthTokenRequest` (src/oauth/routes.rs lines 22-30) minus the
client credential fields, which the model replaces by the already
authenticated client. -/
structure OauthTokenRequest where
  grant_type : String
  code : Option String
  redirect_uri : String
  deriving DecidableEq

/-- Mirrors `OauthTokenResponse` (src/oauth/routes.rs lines 32-40); the
identity token is modelled by its claim set. -/
structure OauthTokenResponse where
  access_token : String
  token_type : String
  expires_in : Nat
  scope : String
  refresh_token : String
  id_token : OidcIdTokenClaims
  deriving DecidableEq

/-- Mirrors the grant dispatch of `oauth_token` (src/oauth/routes.rs lines
293-399) after client authentication has succeeded: only
`authorization_code` is supported; the code is resolved in the grant store
and checked against the request and the current policy state; on success a
fresh access-token grant and a fresh refresh-token grant are stored and
returned with a newly minted identity token.  `fresh_access` and
`fresh_refresh` are the sampled opaque token strings.  The store and
database reads of the model cannot signal a transport error, so the 500
branches are unreachable here. -/
def oauth_token_authenticated (db : IdentityDb) (client : IdentityClient)
    (payload : OauthTokenRequest) (iss : String) (fresh_access : String)
    (fresh_refresh : String) (now : Nat) :
    IdentityDb × Except OauthTokenErr OauthTokenResponse :=
  if payload.grant_type != "authorization_code" then
    (db, .error .unsupported_grant_type)
  else
    match payload.code with
    | none => (db, .error .invalid_request)
    | some code =>
      match OauthCodeData.from_code db code with
      | none => (db, .error .invalid_grant)
      | some code_data =>
        if code_data.redirect_uri != payload.redirect_uri ||
            code_data.client_id != client.client_id then
          (db, .error .invalid_grant)
        else
          match User.from_user_id db code_data.user_id with
          | none => (db, .error .invalid_grant)
          | some user =>
            match get_authorization db user.id client.client_id with
            | none => (db, .error .invalid_grant)
            | some user_app_auth =>
              if user_app_auth.revoked then (db, .error .invalid_grant)
              else
                let groups := User.get_groups db user.id
                if !(is_user_allowed_db db client user groups) then
                  (db, .error .invalid_grant)
                else
                  let id_token := create_id_token db iss user client groups
                    code_data.nonce user_app_auth now
                  let db1 := { db with oauth_access_tokens :=
                    db.oauth_access_tokens ++
                      [(fresh_access, OauthAccessTokenData.mk user.id
                        client.client_id code_data.nonce)] }
                  let db2 := { db1 with oauth_refresh_tokens :=
                    db1.oauth_refresh_tokens ++
                      [(fresh_refresh, OauthRefreshTokenData.mk user.id
                        client.client_id code_data.nonce)] }
                  (db2, .ok
                    ⟨fresh_access, "Bearer", 3600, "openid profile email",
                      fresh_refresh, id_token⟩)

/-- The invalid-grant condition exactly as claim C5 states it: code absent
from the grant store, stored redirect URI or client id differing from the
request, the (user, client) Authorization record revoked, the user no longer
existing, or the access decision false at redemption time.  A MISSING
authorization record makes none of these conditions hold. -/
def c5_claim_invalid_grant_cond (db : IdentityDb) (client : IdentityClient)
    (code : String) (redirect_uri : String) : Bool :=
  match OauthCodeData.from_code db code with
  | none => true
  | some code_data =>
    code_data.redirect_uri != redirect_uri ||
    code_data.client_id != client.client_id ||
    (match get_authorization db code_data.user_id client.client_id with
    | none => false
    | some a => a.revoked) ||
    (match User.from_user_id db code_data.user_id with
    | none => true
    | some user =>
      !(is_user_allowed_db db client user (User.get_groups db user.id)))

/-- The invalid-grant condition as amended: identical to the condition of
claim C5 except that a MISSING (user, client) authorization record also
fails the grant, as the source does. -/
def c5_amended_invalid_grant_cond (db : IdentityDb)
    (client : IdentityClient) (code : String) (redirect_uri : String) :
    Bool :=
  match OauthCodeData.from_code db code with
  | none => true
  | some code_data =>
    if code_data.redirect_uri != redirect_uri ||
        code_data.client_id != client.client_id then true
    else
      match User.from_user_id db code_data.user_id with
      | none => true
      | some user =>
        match get_authorization db user.id client.client_id with
        | none => true
        | some a =>
          if a.revoked then true
          else
            !(is_user_allowed_db db client user (User.get_groups db user.id))

/-- Example group used by the role-resolution example of claim C2. -/
def exampleGroup : IdentityGroup :=
  ⟨1, "eng", "Engineering", "", false⟩

/-- Example user used by the concrete policy examples. -/
def exampleUser : User :=
  ⟨7, "u@example.com", "u", "U", false, 0, false⟩

/-- Example client used by the concrete policy examples. -/
def exampleClient : IdentityClient :=
  ⟨"app", "secret", "App", "", ["https://app.example/cb"], false, false, false,
    true, true⟩

/-- A database with every table empty, base of the concrete examples. -/
def emptyDb : IdentityDb :=
  ⟨[], [], [], [], [], [], [], [], [], [], [], [], [], []⟩

/-- Concrete key material with five pairwise distinct secrets. -/
def exampleKeys : AppPrivateKeys :=
  ⟨"k-passkey-reg", "k-passkey-auth", "k-access", "k-refresh", "k-reg-link"⟩

/-- An active (not suspended) example user. -/
def user1 : User :=
  ⟨1, "a@example.com", "alice", "Alice", false, 11, false⟩

/-- A suspended example user. -/
def suspendedUser : User :=
  ⟨2, "s@example.com", "sam", "Sam", true, 22, false⟩

/-- An enabled example client allowing both flows, default-allowed, with one
registered redirect URI. -/
def client1 : IdentityClient :=
  ⟨"app", "sec", "App", "", ["https://app.example/cb"], false, false, true,
    true, true⟩

/-- Access claims for `user1` on session 10, as minted at login. -/
def ac1 : IdentityAccessClaims :=
  ⟨1, "passkey", 0, 3600, "a@example.com", "alice", "Alice", 5, false, 10⟩

/-- Access claims for `suspendedUser` on session 30, minted before the
suspension flip. -/
def ac2 : IdentityAccessClaims :=
  ⟨2, "passkey", 0, 3600, "s@example.com", "sam", "Sam", 7, false, 30⟩

/-- Session 10 of `user1`, storing the hash of the raw secret "old". -/
def sess10 : UserSession :=
  ⟨10, 1, hash_password "old" 0, 5⟩

/-- Session 30 of `suspendedUser`. -/
def sess30 : UserSession :=
  ⟨30, 2, hash_password "x" 0, 7⟩

/-- Database of the refresh-rotation example: `user1` with session 10. -/
def dbRefresh : IdentityDb :=
  { emptyDb with users := [user1], sessions := [sess10] }

/-- `dbRefresh` after a successful refresh exchange that sampled the fresh
secret "new" with salt 1. -/
def dbRefreshRotated : IdentityDb :=
  { emptyDb with
    users := [user1]
    sessions := [⟨10, 1, hash_password "new" 1, 5⟩] }

/-- The response of the successful refresh exchange in the C3 example. -/
def respRefresh : RefreshTokenResponse :=
  ⟨⟨1, "passkey", 100, 3700, "a@example.com", "alice", "Alice", 5, false, 10⟩,
    ⟨10, "new"⟩⟩

/-- Database of the suspension examples: `suspendedUser` with a session, a
live oauth access-token grant and an authorization record. -/
def dbSuspended : IdentityDb :=
  { emptyDb with
    users := [suspendedUser]
    clients := [client1]
    sessions := [sess30]
    authorizations := [⟨2, "app", "SUB2", 0, false⟩]
    oauth_access_tokens := [("AT", ⟨2, "app", none⟩)] }

/-- Database of the authorize-approve examples: `user1` and `client1`. -/
def dbApprove : IdentityDb :=
  { emptyDb with users := [user1], clients := [client1] }

/-- An authorize request with an EMPTY `response_type`. -/
def payloadEmptyResponseType : OauthAuthorizeRequest :=
  ⟨"openid", "", "app", "https://app.example/cb", none, none, none⟩

/-- The same authorize request with `response_type="code"`. -/
def payloadCodeResponseType : OauthAuthorizeRequest :=
  ⟨"openid", "code", "app", "https://app.example/cb", none, none, none⟩

/-- An authorize request with `response_type="token"` and no explicit
`response_mode`. -/
def payloadTokenResponseType : OauthAuthorizeRequest :=
  ⟨"openid", "token", "app", "https://app.example/cb", none, none, none⟩

/-- Database of the token-exchange counterexample: the code grant for
(user1, client1) is in the store and the user passes the access decision,
but NO (user, client) authorization record exists. -/
def dbTokenNoAuthRecord : IdentityDb :=
  { emptyDb with
    users := [user1]
    clients := [client1]
    oauth_codes := [("C", ⟨1, "app", none, "https://app.example/cb"⟩)] }

/-- The token-exchange counterexample database completed with an unrevoked
authorization record: the happy path of the amended claim C5. -/
def dbTokenWithAuthRecord : IdentityDb :=
  { dbTokenNoAuthRecord with authorizations := [⟨1, "app", "SUB1", 0, false⟩] }

/-- The approve response for `payloadTokenResponseType` against `dbApprove`:
the implicit artifacts land in the fragment, the query is cleared. -/
def respTokenFragment : OauthAuthorizeApproveResponse :=
  ⟨⟨"https://app.example/cb", "https", none,
    some "access_token=A1&token_type=bearer&expires_in=3600"⟩⟩

/-- C1: the access decision starts from the default-allow flag; a user-scoped
override is returned immediately, short-circuiting all group overrides
whatever their priorities or values; otherwise the group overrides are sorted
ascending by priority and every override whose group is among the user
memberships overwrites the accumulator in order, the final accumulator being
the decision. -/
theorem c1_access_decision (client : IdentityClient) (user : User)
    (groups : List IdentityGroup) (o : UserPermissionOverride)
    (gos : List GroupPermissionOverride) :
    is_user_allowed client user groups (some o) gos = o.granted ∧
    is_user_allowed client user groups none gos =
      (sort_group_permissions gos).foldl
        (fun allow p =>
          if (groups.map (fun x => x.id)).contains p.group_id then p.granted
          else allow)
        client.default_allowed :=
  ⟨rfl, rfl⟩

/-- C2: the role set starts empty; the group-scoped role overrides for the
client are sorted ascending by priority and applied in order (granted adds
the role if absent, not granted removes it if present, restricted to groups
the user belongs to); the user-scoped overrides are then applied on top with
the same add/remove semantics.  In the concrete example of the claim -- a
matching group override of priority 1 granting "admin", a matching group
override of priority 2 removing "admin", and a user-scoped override granting
"admin" -- the final role set contains "admin". -/
theorem c2_role_resolution :
    (∀ (client : IdentityClient) (user : User) (groups : List IdentityGroup)
      (gos : List GroupAppRoleOverride) (uos : List UserAppRoleOverride),
      get_user_roles client user groups gos uos =
        uos.foldl (fun roles o => apply_role_override roles o.role o.granted)
          ((sort_group_role_overrides gos).foldl
            (fun roles o =>
              if (groups.map (fun x => x.id)).contains o.group_id then
                apply_role_override roles o.role o.granted
              else roles)
            [])) ∧
    (get_user_roles exampleClient exampleUser [exampleGroup]
        [⟨1, "app", "admin", true, 1⟩, ⟨1, "app", "admin", false, 2⟩]
        [⟨7, "app", "admin", true⟩]).contains "admin" = true :=
  ⟨fun _ _ _ _ _ => rfl, by decide⟩

/-- Finding a session by id in a list whose rows with that id had their
refresh hash replaced finds the first original match with its hash
replaced. -/
theorem find?_map_update_hash (l : List UserSession) (sid : Int)
    (h : HashValue) :
    (l.map (fun t => if t.session_id == sid then
        { t with refresh_hash := h } else t)).find?
      (fun s => s.session_id == sid) =
    (l.find? (fun s => s.session_id == sid)).map (fun t =>
      { t with refresh_hash := h }) := by
  induction l with
  | nil => rfl
  | cons a l ih =>
    rw [List.map_cons]
    by_cases hsid : a.session_id = sid
    · have hb : (a.session_id == sid) = true := beq_iff_eq.mpr hsid
      have hb2 : (({ a with refresh_hash := h } :
          UserSession).session_id == sid) = true := hb
      rw [if_pos hb]
      rw [List.find?_cons_of_pos
        (p := fun (s : UserSession) => s.session_id == sid) _ hb2]
      rw [List.find?_cons_of_pos
        (p := fun (s : UserSession) => s.session_id == sid) _ hb]
      rfl
    · have hb : ¬ ((a.session_id == sid) = true) := by simp [hsid]
      rw [if_neg hb]
      rw [List.find?_cons_of_neg
        (p := fun (s : UserSession) => s.session_id == sid) _ hb]
      rw [List.find?_cons_of_neg
        (p := fun (s : UserSession) => s.session_id == sid) _ hb]
      exact ih

/-- Appending an entry under key `k` to an association list guarantees a
lookup of `k` succeeds. -/
theorem find?_append_key_isSome {β : Type} (l : List (String × β))
    (k : String) (d : β) :
    ((l ++ [(k, d)]).find? (fun kv => kv.1 == k)).isSome = true := by
  rw [List.find?_append]
  have hone : List.find? (fun (kv : String × β) => kv.1 == k) [(k, d)] =
      some (k, d) := by
    simp [List.find?]
  rw [hone]
  cases List.find? (fun (kv : String × β) => kv.1 == k) l <;>
    simp [Option.or]

/-- C3: a successful refresh exchange replaces the stored refresh hash with
the hash of the freshly sampled secret, so presenting the previous raw
secret on a second exchange fails with `SessionExpired`, while both newly
issued token claim sets carry the unchanged session id.  The freshness of
the sampled secret (`fresh_secret` differs from the presented one) is the
only probabilistic assumption. -/
theorem c3_refresh_rotates_secret (db : IdentityDb)
    (claims : IdentityRefreshClaims) (fresh_secret : String) (salt now : Nat)
    (db2 : IdentityDb) (resp : RefreshTokenResponse) (fresh2 : String)
    (salt2 now2 : Nat)
    (hrun : refresh_auth db (some claims) fresh_secret salt now =
      (db2, .ok resp))
    (hfresh : fresh_secret ≠ claims.refresh_token) :
    (refresh_auth db2 (some claims) fresh2 salt2 now2).2 =
      .error .SessionExpired ∧
    resp.refresh_token.session_id = claims.session_id ∧
    resp.access_token.session_id = claims.session_id := by
  simp only [refresh_auth] at hrun
  split at hrun
  · exact absurd (congrArg Prod.snd hrun) (by simp)
  · rename_i session hsess
    split at hrun
    · exact absurd (congrArg Prod.snd hrun) (by simp)
    · rename_i hverNot
      split at hrun
      · exact absurd (congrArg Prod.snd hrun) (by simp)
      · rename_i user huser
        split at hrun
        · exact absurd (congrArg Prod.snd hrun) (by simp)
        · rename_i hsusp
          rw [Prod.mk.injEq] at hrun
          obtain ⟨hdb2, hok⟩ := hrun
          have hresp := Except.ok.inj hok
          have hsess2 : db.sessions.find?
              (fun s => s.session_id == claims.session_id) = some session :=
            hsess
          have hsid : session.session_id = claims.session_id :=
            beq_iff_eq.mp (List.find?_some (p := fun (s : UserSession) =>
              s.session_id == claims.session_id) hsess2)
          have hvfalse : verify_password claims.refresh_token
              (hash_password fresh_secret salt) = false := by
            simp only [verify_password, hash_password]
            simp only [beq_eq_false_iff_ne, ne_eq]
            exact fun h => hfresh h.symm
          have hfind : UserSession.from_session_id db2 claims.session_id =
              some { session with
                refresh_hash := hash_password fresh_secret salt } := by
            rw [← hdb2]
            show (db.sessions.map (fun t =>
              if t.session_id == session.session_id then
                { t with refresh_hash := hash_password fresh_secret salt }
              else t)).find?
              (fun s => s.session_id == claims.session_id) = _
            rw [hsid, find?_map_update_hash, hsess2]
            simp [hsid]
          refine ⟨?_, ?_, ?_⟩
          · simp only [refresh_auth, hfind, hvfalse]
            rfl
          · rw [← hresp]
            exact hsid
          · rw [← hresp]
            exact hsid

/-- Witness for C3: the concrete exchange on `dbRefresh` with old secret
"old" and fresh secret "new" succeeds, after which the old secret is
rejected and the session id 10 is preserved in both new claim sets. -/
theorem c3_refresh_rotates_secret_witness :
    (refresh_auth dbRefreshRotated (some (IdentityRefreshClaims.mk 10 "old"))
        "x" 2 200).2 = .error .SessionExpired ∧
    respRefresh.refresh_token.session_id =
      (IdentityRefreshClaims.mk 10 "old").session_id ∧
    respRefresh.access_token.session_id =
      (IdentityRefreshClaims.mk 10 "old").session_id :=
  c3_refresh_rotates_secret dbRefresh (IdentityRefreshClaims.mk 10 "old")
    "new" 1 100 dbRefreshRotated respRefresh "x" 2 200 (by decide)
    (by decide)

/-- C4: a suspended user is blocked by all four operations, whatever valid
tokens the request carries: `finish_passkey_login` fails once the device
handle resolves to the suspended user, `refresh_auth` fails for any session
owned by the suspended user, `oauth_authorize_approve` fails with
`UserSuspended` through the `User` extractor for any access claims naming
the suspended user, and `oauth_userinfo` answers the 401 challenge for any
grant-store access token naming the suspended user. -/
theorem c4_suspension_blocks :
    (∀ (db : IdentityDb) (dc : Option SignedLoginChallengeClaims)
      (uuid : Nat) (wr : Option String) (nm : Nat) (fs : String)
      (salt now : Nat) (u : User),
      User.from_credential_uuid db uuid = some u → u.is_suspended = true →
      (finish_passkey_login db dc (some uuid) wr nm fs salt now).2.isOk =
        false) ∧
    (∀ (db : IdentityDb) (claims : IdentityRefreshClaims) (fs : String)
      (salt now : Nat) (session : UserSession) (u : User),
      UserSession.from_session_id db claims.session_id = some session →
      User.from_user_id db session.user_id = some u →
      u.is_suspended = true →
      (refresh_auth db (some claims) fs salt now).2.isOk = false) ∧
    (∀ (db : IdentityDb) (ac : IdentityAccessClaims)
      (payload : OauthAuthorizeRequest) (iss fc fa fsub : String)
      (now : Nat) (u : User),
      User.from_user_id db ac.user_id = some u → u.is_suspended = true →
      (oauth_authorize_approve db (some ac) payload iss fc fa fsub now).2 =
        .error .UserSuspended) ∧
    (∀ (db : IdentityDb) (iss tok : String) (now : Nat)
      (data : OauthAccessTokenData) (u : User),
      OauthAccessTokenData.from_token db tok = some data →
      User.from_user_id db data.user_id = some u → u.is_suspended = true →
      oauth_userinfo db iss tok now = .unauthorized) := by
  refine ⟨?_, ?_, ?_, ?_⟩
  · intro db dc uuid wr nm fs salt now u hu hsusp
    cases dc with
    | none => rfl
    | some sc =>
      simp only [finish_passkey_login, hu, hsusp, if_true]
      rfl
  · intro db claims fs salt now session u hsess hu hsusp
    cases hver : verify_password claims.refresh_token session.refresh_hash
      with
    | false =>
      simp only [refresh_auth, hsess, hver, Bool.not_false, if_true]
      rfl
    | true =>
      have hu2 : User.from_user_id
          (UserSession.refresh_session db session fs salt).1
          session.user_id = some u := hu
      simp only [refresh_auth, hsess, hver, Bool.not_true,
        Bool.false_eq_true, if_false, hu2, hsusp, if_true]
      rfl
  · intro db ac payload iss fc fa fsub now u hu hsusp
    simp only [oauth_authorize_approve, User.from_request_parts, hu, hsusp,
      if_true]
  · intro db iss tok now data u hdata hu hsusp
    simp only [oauth_userinfo, hdata]
    cases hauth : get_authorization db data.user_id data.client_id with
    | none => rfl
    | some a =>
      simp only [hu, hsusp, if_true]

/-- Witness for C4: all four operations fail on `dbSuspended`, whose only
user is suspended, despite a decodable challenge, a live session secret, a
valid access claim set and a live grant-store access token. -/
theorem c4_suspension_blocks_witness :
    (finish_passkey_login dbSuspended
        (some (SignedLoginChallengeClaims.mk 0 330 1)) (some 22)
        (some "cred") 5 "s" 0 10).2.isOk = false ∧
    (refresh_auth dbSuspended (some (IdentityRefreshClaims.mk 30 "x")) "n" 1
        10).2.isOk = false ∧
    (oauth_authorize_approve dbSuspended (some ac2) payloadCodeResponseType
        "iss" "C" "A" "S" 10).2 = .error .UserSuspended ∧
    oauth_userinfo dbSuspended "iss" "AT" 10 = .unauthorized :=
  ⟨c4_suspension_blocks.1 dbSuspended
      (some (SignedLoginChallengeClaims.mk 0 330 1)) 22 (some "cred") 5 "s"
      0 10 suspendedUser (by decide) (by decide),
    c4_suspension_blocks.2.1 dbSuspended (IdentityRefreshClaims.mk 30 "x")
      "n" 1 10 sess30 suspendedUser (by decide) (by decide) (by decide),
    c4_suspension_blocks.2.2.1 dbSuspended ac2 payloadCodeResponseType
      "iss" "C" "A" "S" 10 suspendedUser (by decide) (by decide),
    c4_suspension_blocks.2.2.2 dbSuspended "iss" "AT" 10
      (OauthAccessTokenData.mk 2 "app" none) suspendedUser (by decide)
      (by decide) (by decide)⟩

/-- C5, counterexample to the claim as stated: on `dbTokenNoAuthRecord` the
presented code is in the store and matches the request, the user exists and
passes the access decision, and no (user, client) authorization record
exists -- so none of the failure causes enumerated by the claim holds (in
particular no record is revoked) -- yet the exchange answers
`invalid_grant`, not success. -/
theorem c5_missing_authorization_record_counterexample :
    (oauth_token_authenticated dbTokenNoAuthRecord client1
        ⟨"authorization_code", some "C", "https://app.example/cb"⟩ "iss" "A"
        "R" 0).2 = .error .invalid_grant ∧
    c5_claim_invalid_grant_cond dbTokenNoAuthRecord client1 "C"
      "https://app.example/cb" = false :=
  ⟨by decide, by decide⟩

/-- C5 as amended: with an authenticated client and a `code` field present,
the `authorization_code` exchange answers `invalid_grant` exactly when the
code is absent from the grant store, the stored redirect URI or client id
differ from the request, the user no longer exists, the (user, client)
authorization record is MISSING OR revoked, or the access decision is false
at redemption time; otherwise it succeeds, returning the fresh access and
refresh grant strings (both stored in the grant store) and a newly minted
identity token. -/
theorem c5_token_exchange_invalid_grant_amended (db : IdentityDb)
    (client : IdentityClient) (code ruri iss fa fr : String) (now : Nat) :
    ((oauth_token_authenticated db client
        ⟨"authorization_code", some code, ruri⟩ iss fa fr now).2 =
      .error .invalid_grant ↔
      c5_amended_invalid_grant_cond db client code ruri = true) ∧
    (c5_amended_invalid_grant_cond db client code ruri = false →
      ∃ resp, (oauth_token_authenticated db client
          ⟨"authorization_code", some code, ruri⟩ iss fa fr now).2 =
        .ok resp ∧
        resp.access_token = fa ∧ resp.refresh_token = fr ∧
        ((oauth_token_authenticated db client
            ⟨"authorization_code", some code, ruri⟩ iss fa fr
            now).1.oauth_access_tokens.find?
          (fun kv => kv.1 == fa)).isSome = true ∧
        ((oauth_token_authenticated db client
            ⟨"authorization_code", some code, ruri⟩ iss fa fr
            now).1.oauth_refresh_tokens.find?
          (fun kv => kv.1 == fr)).isSome = true) := by
  constructor
  · cases hcd : OauthCodeData.from_code db code with
    | none =>
      simp [oauth_token_authenticated, c5_amended_invalid_grant_cond, hcd]
    | some cd =>
      cases hmis : (cd.redirect_uri != ruri ||
          cd.client_id != client.client_id) with
      | true =>
        simp [oauth_token_authenticated, c5_amended_invalid_grant_cond,
          hcd, hmis]
      | false =>
        cases huser : User.from_user_id db cd.user_id with
        | none =>
          simp [oauth_token_authenticated, c5_amended_invalid_grant_cond,
            hcd, hmis, huser]
        | some user =>
          cases hauth : get_authorization db user.id client.client_id with
          | none =>
            simp [oauth_token_authenticated, c5_amended_invalid_grant_cond,
              hcd, hmis, huser, hauth]
          | some a =>
            cases hrev : a.revoked with
            | true =>
              simp [oauth_token_authenticated,
                c5_amended_invalid_grant_cond, hcd, hmis, huser, hauth,
                hrev]
            | false =>
              cases hallow : is_user_allowed_db db client user
                  (User.get_groups db user.id) with
              | false =>
                simp [oauth_token_authenticated,
                  c5_amended_invalid_grant_cond, hcd, hmis, huser, hauth,
                  hrev, hallow]
              | true =>
                simp [oauth_token_authenticated,
                  c5_amended_invalid_grant_cond, hcd, hmis, huser, hauth,
                  hrev, hallow]
  · intro hcond
    cases hcd : OauthCodeData.from_code db code with
    | none =>
      simp [c5_amended_invalid_grant_cond, hcd] at hcond
    | some cd =>
      cases hmis : (cd.redirect_uri != ruri ||
          cd.client_id != client.client_id) with
      | true =>
        simp [c5_amended_invalid_grant_cond, hcd, hmis] at hcond
      | false =>
        cases huser : User.from_user_id db cd.user_id with
        | none =>
          simp [c5_amended_invalid_grant_cond, hcd, hmis, huser] at hcond
        | some user =>
          cases hauth : get_authorization db user.id client.client_id with
          | none =>
            simp [c5_amended_invalid_grant_cond, hcd, hmis, huser,
              hauth] at hcond
          | some a =>
            cases hrev : a.revoked with
            | true =>
              simp [c5_amended_invalid_grant_cond, hcd, hmis, huser,
                hauth, hrev] at hcond
            | false =>
              cases hallow : is_user_allowed_db db client user
                  (User.get_groups db user.id) with
              | false =>
                simp [c5_amended_invalid_grant_cond, hcd, hmis, huser,
                  hauth, hrev, hallow] at hcond
              | true =>
                have hsnd : (oauth_token_authenticated db client
                    ⟨"authorization_code", some code, ruri⟩ iss fa fr
                    now).2 = .ok ⟨fa, "Bearer", 3600,
                      "openid profile email", fr,
                      create_id_token db iss user client
                        (User.get_groups db user.id) cd.nonce a now⟩ := by
                  simp [oauth_token_authenticated, hcd, hmis, huser, hauth,
                    hrev, hallow]
                have hacc : (oauth_token_authenticated db client
                    ⟨"authorization_code", some code, ruri⟩ iss fa fr
                    now).1.oauth_access_tokens =
                    db.oauth_access_tokens ++
                      [(fa, ⟨user.id, client.client_id, cd.nonce⟩)] := by
                  simp [oauth_token_authenticated, hcd, hmis, huser, hauth,
                    hrev, hallow]
                have href : (oauth_token_authenticated db client
                    ⟨"authorization_code", some code, ruri⟩ iss fa fr
                    now).1.oauth_refresh_tokens =
                    db.oauth_refresh_tokens ++
                      [(fr, ⟨user.id, client.client_id, cd.nonce⟩)] := by
                  simp [oauth_token_authenticated, hcd, hmis, huser, hauth,
                    hrev, hallow]
                refine ⟨_, hsnd, rfl, rfl, ?_, ?_⟩
                · rw [hacc]
                  exact find?_append_key_isSome _ fa _
                · rw [href]
                  exact find?_append_key_isSome _ fr _

/-- Witness for C5 as amended: on `dbTokenWithAuthRecord`, where the
authorization record exists and is unrevoked, the amended condition is
false and the exchange succeeds with the fresh grant strings "A" and "R". -/
theorem c5_token_exchange_invalid_grant_amended_witness :
    c5_amended_invalid_grant_cond dbTokenWithAuthRecord client1 "C"
      "https://app.example/cb" = false ∧
    (∃ resp, (oauth_token_authenticated dbTokenWithAuthRecord client1
        ⟨"authorization_code", some "C", "https://app.example/cb"⟩ "iss" "A"
        "R" 0).2 = .ok resp ∧
      resp.access_token = "A" ∧ resp.refresh_token = "R" ∧
      ((oauth_token_authenticated dbTokenWithAuthRecord client1
          ⟨"authorization_code", some "C", "https://app.example/cb"⟩ "iss"
          "A" "R" 0).1.oauth_access_tokens.find?
        (fun kv => kv.1 == "A")).isSome = true ∧
      ((oauth_token_authenticated dbTokenWithAuthRecord client1
          ⟨"authorization_code", some "C", "https://app.example/cb"⟩ "iss"
          "A" "R" 0).1.oauth_refresh_tokens.find?
        (fun kv => kv.1 == "R")).isSome = true) :=
  ⟨by decide,
    (c5_token_exchange_invalid_grant_amended dbTokenWithAuthRecord client1
      "C" "https://app.example/cb" "iss" "A" "R" 0).2 (by decide)⟩

/-- C6: the claim asserts every pair of distinct key purposes signs with an
independent key, so that a registration-challenge token never decodes under
the login-challenge purpose even with an identical payload shape.  The
source wires BOTH challenge purposes to `passkey_registration_key` (the
dedicated `passkey_authentication_key` is generated but never used), so a
token of identical payload shape encoded for the registration challenge
always decodes under the login challenge -- shown universally and on
concrete key material whose five secrets are pairwise distinct. -/
theorem c6_registration_challenge_decodes_under_login_purpose :
    (∀ (α : Type) (keys : AppPrivateKeys) (payload : α),
      decode_token keys KeyPurpose.loginChallenge
        (encode_token keys KeyPurpose.registrationChallenge payload) =
        some payload) ∧
    decode_token exampleKeys KeyPurpose.loginChallenge
        (encode_token exampleKeys KeyPurpose.registrationChallenge
          (SignedLoginChallengeClaims.mk 0 330 42)) =
      some (SignedLoginChallengeClaims.mk 0 330 42) ∧
    exampleKeys.passkey_registration_key ≠
      exampleKeys.passkey_authentication_key := by
  refine ⟨fun α keys payload => ?_, by decide, by decide⟩
  simp [decode_token, encode_token, purpose_key]

/-- C7: the claim asserts an empty `response_type` behaves exactly like
`response_type="code"` through Approve.  Validation does default the empty
list to `code`, but `oauth_authorize_approve` re-splits the raw string
without that default: on `dbApprove` the empty-response-type request
validates and succeeds, yet mints NO code grant and attaches an empty query
to the redirect, while the explicit `code` request mints the grant and
attaches `code=C1`. -/
theorem c7_empty_response_type_approve_mints_nothing :
    validate_oauth_authorization dbApprove user1 payloadEmptyResponseType
      client1 (User.get_groups dbApprove user1.id) = none ∧
    (oauth_authorize_approve dbApprove (some ac1) payloadEmptyResponseType
        "iss" "C1" "A1" "S1" 100).2 =
      .ok ⟨⟨"https://app.example/cb", "https", some "", none⟩⟩ ∧
    (oauth_authorize_approve dbApprove (some ac1) payloadEmptyResponseType
        "iss" "C1" "A1" "S1" 100).1.oauth_codes = [] ∧
    (oauth_authorize_approve dbApprove (some ac1) payloadCodeResponseType
        "iss" "C1" "A1" "S1" 100).2 =
      .ok ⟨⟨"https://app.example/cb", "https", some "code=C1", none⟩⟩ ∧
    (oauth_authorize_approve dbApprove (some ac1) payloadCodeResponseType
        "iss" "C1" "A1" "S1" 100).1.oauth_codes =
      [("C1", ⟨1, "app", none, "https://app.example/cb"⟩)] :=
  ⟨by decide, by decide, by decide, by decide, by decide⟩

/-- C8: on every successful Approve the callback parameters are attached as
the fragment exactly when `response_mode` is explicitly `fragment`, or is
absent and the re-split response types include `token` or `id_token`
(`approve_use_fragment`); otherwise they are attached as the query; in both
cases the unused component is cleared. -/
theorem c8_redirect_fragment_vs_query (db : IdentityDb)
    (claims_ext : Option IdentityAccessClaims)
    (payload : OauthAuthorizeRequest) (iss fc fa fsub : String) (now : Nat)
    (resp : OauthAuthorizeApproveResponse)
    (hrun : (oauth_authorize_approve db claims_ext payload iss fc fa fsub
        now).2 = .ok resp) :
    (approve_use_fragment payload = true →
      resp.redirect_to.query = none ∧
      resp.redirect_to.fragment.isSome = true) ∧
    (approve_use_fragment payload = false →
      resp.redirect_to.fragment = none ∧
      resp.redirect_to.query.isSome = true) := by
  simp only [oauth_authorize_approve] at hrun
  split at hrun
  · simp at hrun
  · split at hrun
    · simp at hrun
    · split at hrun
      · simp at hrun
      · split at hrun
        · simp at hrun
        · cases hf : approve_use_fragment payload with
          | true =>
            rw [hf] at hrun
            simp only [if_true] at hrun
            have hresp := Except.ok.inj hrun
            refine ⟨fun _ => ?_, fun hcontra => absurd hcontra (by decide)⟩
            rw [← hresp]
            exact ⟨rfl, rfl⟩
          | false =>
            rw [hf] at hrun
            simp only [Bool.false_eq_true, if_false] at hrun
            have hresp := Except.ok.inj hrun
            refine ⟨fun hcontra => absurd hcontra (by decide), fun _ => ?_⟩
            rw [← hresp]
            exact ⟨rfl, rfl⟩

/-- Witness for C8: the concrete `response_type="token"` request with no
explicit response mode succeeds on `dbApprove` and its artifacts land in
the fragment with the query cleared. -/
theorem c8_redirect_fragment_vs_query_witness :
    (approve_use_fragment payloadTokenResponseType = true →
      respTokenFragment.redirect_to.query = none ∧
      respTokenFragment.redirect_to.fragment.isSome = true) ∧
    (approve_use_fragment payloadTokenResponseType = false →
      respTokenFragment.redirect_to.fragment = none ∧
      respTokenFragment.redirect_to.query.isSome = true) :=
  c8_redirect_fragment_vs_query dbApprove (some ac1)
    payloadTokenResponseType "iss" "C1" "A1" "S1" 100 respTokenFragment
    (by decide)

/-- C9: the claim asserts session ids of successive `create_session` calls
in one process are strictly increasing and collision-free.  Because the
function constructs a fresh `Generator::new(0)` locally on every call, two
calls inside the same millisecond (clock trace [5, 5]) both produce
5 * 2 ^ 22 = 20971520 -- a collision, hence no strict increase -- whereas a
single process-shared generator would have produced 20971520 then
20971521. -/
theorem c9_fresh_generator_per_call_collides :
    create_session_id_trace [5, 5] = [20971520, 20971520] ∧
    ¬ (create_session_id_trace [5, 5]).Nodup ∧
    ((SnowflakeGenerator.new 0).generate 5).1 = 20971520 ∧
    (((SnowflakeGenerator.new 0).generate 5).2.generate 5).1 = 20971521 := by
  refine ⟨by decide, ?_, by decide, by decide⟩
  intro hn
  have htrace : create_session_id_trace [5, 5] = [20971520, 20971520] := by
    decide
  rw [htrace] at hn
  simp [List.Nodup] at hn

/-- C10: whenever the presented refresh claims decode, the session exists
and the presented secret verifies, the rotation happens BEFORE the owning
user is re-validated: a deleted owner yields `UserDeleted` and a suspended
owner `UserSuspended` (not `SessionExpired`), and in both cases the
returned state already stores the hash of the fresh secret, against which
the presented raw secret no longer verifies. -/
theorem c10_rotation_precedes_user_validation (db : IdentityDb)
    (claims : IdentityRefreshClaims) (fresh_secret : String) (salt now : Nat)
    (session : UserSession)
    (hsess : UserSession.from_session_id db claims.session_id = some session)
    (hver : verify_password claims.refresh_token session.refresh_hash = true)
    (hfresh : fresh_secret ≠ claims.refresh_token) :
    (User.from_user_id db session.user_id = none →
      refresh_auth db (some claims) fresh_secret salt now =
        ((UserSession.refresh_session db session fresh_secret salt).1,
          .error .UserDeleted)) ∧
    (∀ u, User.from_user_id db session.user_id = some u →
      u.is_suspended = true →
      refresh_auth db (some claims) fresh_secret salt now =
        ((UserSession.refresh_session db session fresh_secret salt).1,
          .error .UserSuspended)) ∧
    UserSession.from_session_id
        (UserSession.refresh_session db session fresh_secret salt).1
        claims.session_id =
      some { session with refresh_hash := hash_password fresh_secret salt } ∧
    verify_password claims.refresh_token
      (hash_password fresh_secret salt) = false := by
  have hsess2 : db.sessions.find?
      (fun s => s.session_id == claims.session_id) = some session := hsess
  have hsid : session.session_id = claims.session_id :=
    beq_iff_eq.mp (List.find?_some (p := fun (s : UserSession) =>
      s.session_id == claims.session_id) hsess2)
  have hvfalse : verify_password claims.refresh_token
      (hash_password fresh_secret salt) = false := by
    simp only [verify_password, hash_password]
    simp only [beq_eq_false_iff_ne, ne_eq]
    exact fun h => hfresh h.symm
  refine ⟨?_, ?_, ?_, hvfalse⟩
  · intro hnone
    have hnone2 : User.from_user_id
        (UserSession.refresh_session db session fresh_secret salt).1
        session.user_id = none := hnone
    simp only [refresh_auth, hsess, hver, Bool.not_true, Bool.false_eq_true,
      if_false, hnone2]
  · intro u hu hsusp
    have hu2 : User.from_user_id
        (UserSession.refresh_session db session fresh_secret salt).1
        session.user_id = some u := hu
    simp only [refresh_auth, hsess, hver, Bool.not_true, Bool.false_eq_true,
      if_false, hu2, hsusp, if_true]
  · show (db.sessions.map (fun t =>
      if t.session_id == session.session_id then
        { t with refresh_hash := hash_password fresh_secret salt }
      else t)).find?
      (fun s => s.session_id == claims.session_id) = _
    rw [hsid, find?_map_update_hash, hsess2]
    simp [hsid]

/-- Witness for C10: on `dbSuspended` the presented secret "x" verifies for
session 30 whose owner is suspended; the run answers `UserSuspended` and the
stored hash is already the hash of the fresh secret "n", which the old
secret no longer matches. -/
theorem c10_rotation_precedes_user_validation_witness :
    (User.from_user_id dbSuspended sess30.user_id = none →
      refresh_auth dbSuspended (some (IdentityRefreshClaims.mk 30 "x")) "n" 1
          10 =
        ((UserSession.refresh_session dbSuspended sess30 "n" 1).1,
          .error .UserDeleted)) ∧
    (∀ u, User.from_user_id dbSuspended sess30.user_id = some u →
      u.is_suspended = true →
      refresh_auth dbSuspended (some (IdentityRefreshClaims.mk 30 "x")) "n" 1
          10 =
        ((UserSession.refresh_session dbSuspended sess30 "n" 1).1,
          .error .UserSuspended)) ∧
    UserSession.from_session_id
        (UserSession.refresh_session dbSuspended sess30 "n" 1).1
        (IdentityRefreshClaims.mk 30 "x").session_id =
      some { sess30 with refresh_hash := hash_password "n" 1 } ∧
    verify_password (IdentityRefreshClaims.mk 30 "x").refresh_token
      (hash_password "n" 1) = false :=
  c10_rotation_precedes_user_validation dbSuspended
    (IdentityRefreshClaims.mk 30 "x") "n" 1 10 sess30 (by decide)
    (by decide) (by decide)
